import Mathlib

/-!
Shallow embedding of `main.go` of `gh-notifications`, a CLI that lists and
bulk-unsubscribes from GitHub notification threads.

Remote interactions (the GitHub client) are modelled by an explicit
environment `RemoteEnv` of oracle functions, and every remote call and every
printed line is recorded in an event trace, so that properties about call
counts, call order and output can be stated and proved.
-/

namespace GhNotifications

/-- The subject of a notification: `n.GetSubject()` in `main.go`
(title, type tag, detail-resource URL). -/
structure Subject where
  title : String
  type : String
  url : String
  deriving DecidableEq

/-- The owning repository of a notification; only its full name is read
(`notif.GetRepository().GetFullName()`). -/
structure Repository where
  fullName : String
  deriving DecidableEq

/-- A notification record as read by `main.go`: identifier, unread flag,
subscription reason, owning repository and subject. -/
structure Notification where
  id : String
  unread : Bool
  reason : String
  repository : Repository
  subject : Subject
  deriving DecidableEq

/-- The global `Filters` struct of `main.go`. -/
structure Filters where
  repository : String
  subjectType : String
  subjectState : String
  listRead : Bool
  unsubscribeUnread : Bool
  deriving DecidableEq

/-- The fields of `github.PullRequest` read by `resolveNotificationSubjectState`:
`pr.GetState()` and `pr.GetMerged()`. -/
structure PullRequestDetail where
  state : String
  merged : Bool
  deriving DecidableEq

/-- The field of `github.Issue` read by `resolveNotificationSubjectState`:
`issue.GetState()`. -/
structure IssueDetail where
  state : String
  deriving DecidableEq

/-- The errors surfaced by `main.go`, one constructor per `fmt.Errorf` wrap
site plus the `default` branch of the resolver's type switch; each carries the
message of the wrapped underlying error. -/
inductive GoError where
  | listNotificationsFailed (inner : String)
  | pullRequestDetailsFailed (inner : String)
  | issueDetailsFailed (inner : String)
  | unsupportedSubjectType (t : String)
  | markReadFailed (inner : String)
  | unsubscribeFailed (inner : String)
  deriving DecidableEq

/-- Observable effects of one run: each remote call made through the GitHub
client, and each line printed to standard output. -/
inductive Event where
  | listNotifications (includeRead : Bool)
  | fetchDetail (url : String)
  | markThreadRead (id : String)
  | deleteThreadSubscription (id : String)
  | output (line : String)
  deriving DecidableEq

/-- The remote GitHub service, as consumed by `main.go`: listing (with the
`All` option), detail fetch by URL deserialized as a pull request or as an
issue (`getObject`), and the two thread mutations. `Except`/`Option` model
the `error` results; the `String` is the underlying error's message. -/
structure RemoteEnv where
  listNotifications : Bool → Except String (List Notification)
  fetchPullRequest : String → Except String PullRequestDetail
  fetchIssue : String → Except String IssueDetail
  markThreadRead : String → Option String
  deleteThreadSubscription : String → Option String

/-- The `resolveNotificationSubjectState` function of `main.go`: switch on the subject
type, fetch the detail resource at the subject URL, and map it to a state
string; a pull request's state is overridden to `"merged"` when its merged
flag is set; any other subject type yields the unsupported-type error.
Returns the trace of remote calls made together with the result. -/
def resolveNotificationSubjectState (env : RemoteEnv) (n : Notification) :
    List Event × Except GoError String :=
  match n.subject.type with
  | "PullRequest" =>
    match env.fetchPullRequest n.subject.url with
    | .error e => ([.fetchDetail n.subject.url], .error (.pullRequestDetailsFailed e))
    | .ok pr =>
      let state := pr.state
      let state := if pr.merged then "merged" else state
      ([.fetchDetail n.subject.url], .ok state)
  | "Issue" =>
    match env.fetchIssue n.subject.url with
    | .error e => ([.fetchDetail n.subject.url], .error (.issueDetailsFailed e))
    | .ok issue => ([.fetchDetail n.subject.url], .ok issue.state)
  | t => ([], .error (.unsupportedSubjectType t))

/-- Outcome of processing a single notification inside the pipeline loop:
skipped by a filter, acted upon successfully, aborted before the action
(resolver error), or aborted by the action itself. Each case carries the
events emitted while processing the notification. -/
inductive StepOutcome where
  | skipped (events : List Event)
  | acted (events : List Event)
  | failedBeforeAction (events : List Event) (e : GoError)
  | failedInAction (events : List Event) (e : GoError)
  deriving DecidableEq

/-- The `do(notif)` call site of `forEachNotifications`: run the action and
classify its result, keeping the events `ev` already emitted for this
notification in front of the action's own events. -/
def invokeActionStep (act : Notification → List Event × Option GoError)
    (notif : Notification) (ev : List Event) : StepOutcome :=
  match (act notif).2 with
  | some e => .failedInAction (ev ++ (act notif).1) e
  | none => .acted (ev ++ (act notif).1)

/-- The body of the `for _, notif := range notifications` loop of
`forEachNotifications`: subject-type filter, optional repository filter,
optional subject-state filter (which drives the resolver), then the action. -/
def processNotification (env : RemoteEnv) (f : Filters)
    (act : Notification → List Event × Option GoError) (notif : Notification) :
    StepOutcome :=
  if f.subjectType ≠ notif.subject.type then .skipped []
  else if f.repository ≠ "" ∧ f.repository ≠ notif.repository.fullName then .skipped []
  else if f.subjectState ≠ "" then
    match (resolveNotificationSubjectState env notif).2 with
    | .error e => .failedBeforeAction (resolveNotificationSubjectState env notif).1 e
    | .ok state =>
      if state ≠ f.subjectState then .skipped (resolveNotificationSubjectState env notif).1
      else invokeActionStep act notif (resolveNotificationSubjectState env notif).1
  else invokeActionStep act notif []

/-- Result of a pipeline pass: the event trace, the notifications on which
the action was invoked (in invocation order), and the first error, if any. -/
structure PipelineResult where
  events : List Event
  invoked : List Notification
  err : Option GoError
  deriving DecidableEq

/-- The loop of `forEachNotifications` over an already-fetched listing:
process the notifications in listing order, stopping at the first error. -/
def forEachNotificationsLoop (env : RemoteEnv) (f : Filters)
    (act : Notification → List Event × Option GoError) :
    List Notification → PipelineResult
  | [] => ⟨[], [], none⟩
  | notif :: rest =>
    match processNotification env f act notif with
    | .skipped ev =>
      let r := forEachNotificationsLoop env f act rest
      ⟨ev ++ r.events, r.invoked, r.err⟩
    | .acted ev =>
      let r := forEachNotificationsLoop env f act rest
      ⟨ev ++ r.events, notif :: r.invoked, r.err⟩
    | .failedBeforeAction ev e => ⟨ev, [], some e⟩
    | .failedInAction ev e => ⟨ev, [notif], some e⟩

/-- The `forEachNotifications` function of `main.go`: fetch the listing once (with the
given `All` option), then run the filter loop; a fetch failure is wrapped
and returned immediately. -/
def forEachNotifications (env : RemoteEnv) (f : Filters) (includeRead : Bool)
    (act : Notification → List Event × Option GoError) : PipelineResult :=
  match env.listNotifications includeRead with
  | .error e =>
    ⟨[.listNotifications includeRead], [], some (.listNotificationsFailed e)⟩
  | .ok notifications =>
    let r := forEachNotificationsLoop env f act notifications
    ⟨.listNotifications includeRead :: r.events, r.invoked, r.err⟩

/-- Left-justified padding of `fmt.Printf("%-80s %s\n", ...)`. -/
def leftJustify (s : String) (width : Nat) : String :=
  s ++ String.mk (List.replicate (width - s.length) ' ')

/-- One line of `list` output: the title padded to 80 columns, a space, and
the state. -/
def listLine (title state : String) : String :=
  leftJustify title 80 ++ " " ++ state

/-- The `printNotification` closure of `runList`: reuse the configured state
filter as the display state when it is set, otherwise resolve the subject
state; then print one line. -/
def printNotification (env : RemoteEnv) (f : Filters) (n : Notification) :
    List Event × Option GoError :=
  if f.subjectState == "" then
    match resolveNotificationSubjectState env n with
    | (ev, .error e) => (ev, some e)
    | (ev, .ok state) => (ev ++ [.output (listLine n.subject.title state)], none)
  else
    ([.output (listLine n.subject.title f.subjectState)], none)

/-- The confirmation line printed by the `unsubscribe` closure on success. -/
def unsubscribeConfirmLine (n : Notification) : String :=
  "✅  " ++ n.subject.title ++ " (thread " ++ n.id ++ ", reason was \"" ++
    n.reason ++ "\", " ++ n.subject.url ++ ")"

/-- The `unsubscribe` closure of `runUnsubscribe`: an unread notification is
skipped silently unless the unread flag is set, in which case the thread is
first marked read; then the thread subscription is deleted and a confirmation
line is printed. -/
def unsubscribeAction (env : RemoteEnv) (f : Filters) (n : Notification) :
    List Event × Option GoError :=
  let deleteStep : List Event × Option GoError :=
    match env.deleteThreadSubscription n.id with
    | some e => ([.deleteThreadSubscription n.id], some (.unsubscribeFailed e))
    | none =>
      ([.deleteThreadSubscription n.id, .output (unsubscribeConfirmLine n)], none)
  if n.unread then
    if !f.unsubscribeUnread then ([], none)
    else
      match env.markThreadRead n.id with
      | some e => ([.markThreadRead n.id], some (.markReadFailed e))
      | none => (.markThreadRead n.id :: deleteStep.1, deleteStep.2)
  else deleteStep

/-- The message of each error, following the `fmt.Errorf` format strings of
`main.go`. -/
def goErrorMessage : GoError → String
  | .listNotificationsFailed e => "failed to list notifications, " ++ e
  | .pullRequestDetailsFailed e => "failed to get pull request details, " ++ e
  | .issueDetailsFailed e => "failed to get issue details, " ++ e
  | .unsupportedSubjectType t => "unhandled subject type \"" ++ t ++ "\""
  | .markReadFailed e => "failed to mark thread as read, " ++ e
  | .unsubscribeFailed e => "failed to unsubscribe from thread, " ++ e

/-- The error line both command handlers print when the pipeline fails. -/
def processFailedLine (e : GoError) : String :=
  "Failed to process notifications, " ++ goErrorMessage e

/-- The `runList` handler: run the pipeline with `All := filters.listRead` and the print
action; a pipeline error is printed and swallowed (the handler returns
nothing). The result is the full event trace of the command. -/
def runList (env : RemoteEnv) (f : Filters) : List Event :=
  let r := forEachNotifications env f f.listRead (printNotification env f)
  match r.err with
  | some e => r.events ++ [.output (processFailedLine e)]
  | none => r.events

/-- The `runUnsubscribe` handler: run the pipeline with `All := true` (unconditionally)
and the unsubscribe action; a pipeline error is printed and swallowed. -/
def runUnsubscribe (env : RemoteEnv) (f : Filters) : List Event :=
  let r := forEachNotifications env f true (unsubscribeAction env f)
  match r.err with
  | some e => r.events ++ [.output (processFailedLine e)]
  | none => r.events

/-- The two subcommands registered on `rootCommand`. -/
inductive Subcommand where
  | list
  | unsubscribe
  deriving DecidableEq

/-- The `main` function dispatching through `rootCommand.Execute()` to a subcommand's
handler. The handlers are registered as cobra `Run` functions (not `RunE`),
which have no error return value, so after a handler runs `Execute` returns
no error and `main` never reaches its `os.Exit(1)` branch: the second
component, the process exit status, is `0` for every completed run. -/
def mainRun (env : RemoteEnv) (f : Filters) (cmd : Subcommand) :
    List Event × Nat :=
  match cmd with
  | .list => (runList env f, 0)
  | .unsubscribe => (runUnsubscribe env f, 0)

/-- The flag defaults of the `list` command (`initCommands`): repository
unset, subject type `PullRequest`, state unset, read notifications hidden. -/
def defaultListFilters : Filters :=
  { repository := ""
    subjectType := "PullRequest"
    subjectState := ""
    listRead := false
    unsubscribeUnread := false }

/-- The flag defaults of the `unsubscribe` command (`initCommands`):
repository unset, subject type `PullRequest`, state `closed`, unread
notifications not force-unsubscribed. -/
def defaultUnsubscribeFilters : Filters :=
  { repository := ""
    subjectType := "PullRequest"
    subjectState := "closed"
    listRead := false
    unsubscribeUnread := false }

/-- The combined filter predicate of the pipeline, exactly as the claims
state it: subject type equal to the configured filter; repository filter
unset or equal to the notification's repository full name; state filter
unset or equal to the successfully resolved subject state. -/
def passesAllFilters (env : RemoteEnv) (f : Filters) (n : Notification) : Bool :=
  (f.subjectType == n.subject.type) &&
  (f.repository == "" || f.repository == n.repository.fullName) &&
  (f.subjectState == "" ||
    match (resolveNotificationSubjectState env n).2 with
    | .ok s => s == f.subjectState
    | .error _ => false)

/-- Unfolding of the combined filter predicate into propositional form. -/
lemma passesAllFilters_iff (env : RemoteEnv) (f : Filters) (n : Notification) :
    passesAllFilters env f n = true ↔
      f.subjectType = n.subject.type ∧
      (f.repository = "" ∨ f.repository = n.repository.fullName) ∧
      (f.subjectState = "" ∨
        ∃ s, (resolveNotificationSubjectState env n).2 = Except.ok s ∧
          s = f.subjectState) := by
  unfold passesAllFilters
  rcases hres : (resolveNotificationSubjectState env n).2 with e | s
  · simp [Bool.and_eq_true, Bool.or_eq_true, beq_iff_eq, and_assoc]
  · simp [Bool.and_eq_true, Bool.or_eq_true, beq_iff_eq, and_assoc]

/-- The action call site never reports a skip. -/
lemma invokeActionStep_ne_skipped (act : Notification → List Event × Option GoError)
    (notif : Notification) (ev ev2 : List Event) :
    invokeActionStep act notif ev ≠ .skipped ev2 := by
  unfold invokeActionStep
  cases (act notif).2 <;> simp

/-- The action call site never reports a pre-action failure. -/
lemma invokeActionStep_ne_failedBefore
    (act : Notification → List Event × Option GoError)
    (notif : Notification) (ev ev2 : List Event) (e : GoError) :
    invokeActionStep act notif ev ≠ .failedBeforeAction ev2 e := by
  unfold invokeActionStep
  cases (act notif).2 <;> simp

/-- A notification skipped by the loop body fails the combined filter. -/
lemma passes_false_of_skipped (env : RemoteEnv) (f : Filters)
    (act : Notification → List Event × Option GoError) (notif : Notification)
    (ev : List Event)
    (h : processNotification env f act notif = .skipped ev) :
    passesAllFilters env f notif = false := by
  rw [Bool.eq_false_iff, Ne, passesAllFilters_iff]
  rintro ⟨hty, hrep, hst⟩
  unfold processNotification at h
  rw [if_neg (not_not_intro hty)] at h
  have hrep2 : ¬(f.repository ≠ "" ∧ f.repository ≠ notif.repository.fullName) := by
    rcases hrep with hr | hr
    · exact fun hc => hc.1 hr
    · exact fun hc => hc.2 hr
  rw [if_neg hrep2] at h
  by_cases hss : f.subjectState = ""
  · rw [if_neg (not_not_intro hss)] at h
    exact invokeActionStep_ne_skipped act notif [] ev h
  · rw [if_pos hss] at h
    rcases hst with hst | ⟨s, hok, hsf⟩
    · exact hss hst
    · rw [hok] at h
      simp only at h
      rw [if_neg (not_not_intro hsf)] at h
      exact invokeActionStep_ne_skipped act notif _ ev h

/-- A notification on which the loop body ran the action (successfully or
not) passes the combined filter; moreover the action's verdict matches the
outcome. -/
lemma passes_true_of_invoked (env : RemoteEnv) (f : Filters)
    (act : Notification → List Event × Option GoError) (notif : Notification)
    (ev : List Event)
    (h : processNotification env f act notif = .acted ev ∨
      ∃ e, processNotification env f act notif = .failedInAction ev e) :
    passesAllFilters env f notif = true := by
  rw [passesAllFilters_iff]
  have hproc : ∀ ev2 : List Event,
      processNotification env f act notif ≠ .skipped ev2 := by
    rintro ev2 hsk
    rcases h with h | ⟨e, h⟩ <;> rw [hsk] at h <;> simp at h
  have hproc2 : ∀ (ev2 : List Event) (e : GoError),
      processNotification env f act notif ≠ .failedBeforeAction ev2 e := by
    rintro ev2 e hfb
    rcases h with h | ⟨e2, h⟩ <;> rw [hfb] at h <;> simp at h
  unfold processNotification at hproc hproc2
  by_cases h1 : f.subjectType ≠ notif.subject.type
  · rw [if_pos h1] at hproc
    exact absurd rfl (hproc [])
  · rw [if_neg h1] at hproc hproc2
    rw [not_ne_iff] at h1
    by_cases h2 : f.repository ≠ "" ∧ f.repository ≠ notif.repository.fullName
    · rw [if_pos h2] at hproc
      exact absurd rfl (hproc [])
    · rw [if_neg h2] at hproc hproc2
      have hrep : f.repository = "" ∨ f.repository = notif.repository.fullName := by
        by_cases hr : f.repository = ""
        · exact Or.inl hr
        · right
          by_contra hr2
          exact h2 ⟨hr, hr2⟩
      by_cases h3 : f.subjectState = ""
      · exact ⟨h1, hrep, Or.inl h3⟩
      · rw [if_pos h3] at hproc hproc2
        rcases hres : (resolveNotificationSubjectState env notif).2 with e | s
        · rw [hres] at hproc2
          simp only at hproc2
          exact absurd rfl (hproc2 _ e)
        · rw [hres] at hproc
          simp only at hproc
          by_cases h4 : s ≠ f.subjectState
          · rw [if_pos h4] at hproc
            exact absurd rfl (hproc _)
          · rw [not_ne_iff] at h4
            exact ⟨h1, hrep, Or.inr ⟨s, rfl, h4⟩⟩

/-- Inversion of a pre-action failure: the subject type matched the filter,
the state filter was set, and the error is the resolver's. -/
lemma failedBefore_inv (env : RemoteEnv) (f : Filters)
    (act : Notification → List Event × Option GoError) (notif : Notification)
    (ev : List Event) (e : GoError)
    (h : processNotification env f act notif = .failedBeforeAction ev e) :
    f.subjectType = notif.subject.type ∧ f.subjectState ≠ "" ∧
      (resolveNotificationSubjectState env notif).2 = Except.error e := by
  unfold processNotification at h
  by_cases h1 : f.subjectType ≠ notif.subject.type
  · rw [if_pos h1] at h
    simp at h
  · rw [if_neg h1] at h
    rw [not_ne_iff] at h1
    by_cases h2 : f.repository ≠ "" ∧ f.repository ≠ notif.repository.fullName
    · rw [if_pos h2] at h
      simp at h
    · rw [if_neg h2] at h
      by_cases h3 : f.subjectState = ""
      · rw [if_neg (not_not_intro h3)] at h
        exact absurd h (invokeActionStep_ne_failedBefore act notif [] ev e)
      · rw [if_pos h3] at h
        rcases hres : (resolveNotificationSubjectState env notif).2 with e2 | s
        · rw [hres] at h
          simp only at h
          rcases h with ⟨-, rfl⟩
          exact ⟨h1, h3, rfl⟩
        · rw [hres] at h
          simp only at h
          by_cases h4 : s ≠ f.subjectState
          · rw [if_pos h4] at h
            simp at h
          · rw [if_neg h4] at h
            exact absurd h (invokeActionStep_ne_failedBefore act notif _ ev e)

/-- Inversion of an in-action failure: the error is the one returned by the
action on this notification. -/
lemma failedIn_inv (env : RemoteEnv) (f : Filters)
    (act : Notification → List Event × Option GoError) (notif : Notification)
    (ev : List Event) (e : GoError)
    (h : processNotification env f act notif = .failedInAction ev e) :
    (act notif).2 = some e := by
  have hstep : ∀ ev0 : List Event,
      invokeActionStep act notif ev0 = .failedInAction ev e → (act notif).2 = some e := by
    intro ev0 hi
    unfold invokeActionStep at hi
    rcases hact : (act notif).2 with - | e2
    · rw [hact] at hi
      simp at hi
    · rw [hact] at hi
      simp only at hi
      rcases hi with ⟨-, rfl⟩
      rfl
  unfold processNotification at h
  by_cases h1 : f.subjectType ≠ notif.subject.type
  · rw [if_pos h1] at h
    simp at h
  · rw [if_neg h1] at h
    by_cases h2 : f.repository ≠ "" ∧ f.repository ≠ notif.repository.fullName
    · rw [if_pos h2] at h
      simp at h
    · rw [if_neg h2] at h
      by_cases h3 : f.subjectState = ""
      · rw [if_neg (not_not_intro h3)] at h
        exact hstep [] h
      · rw [if_pos h3] at h
        rcases hres : (resolveNotificationSubjectState env notif).2 with e2 | s
        · rw [hres] at h
          simp at h
        · rw [hres] at h
          simp only at h
          by_cases h4 : s ≠ f.subjectState
          · rw [if_pos h4] at h
            simp at h
          · rw [if_neg h4] at h
            exact hstep _ h

/-- One unfolding step of the pipeline loop. -/
lemma forEachNotificationsLoop_cons (env : RemoteEnv) (f : Filters)
    (act : Notification → List Event × Option GoError)
    (notif : Notification) (rest : List Notification) :
    forEachNotificationsLoop env f act (notif :: rest) =
      match processNotification env f act notif with
      | .skipped ev =>
        ⟨ev ++ (forEachNotificationsLoop env f act rest).events,
          (forEachNotificationsLoop env f act rest).invoked,
          (forEachNotificationsLoop env f act rest).err⟩
      | .acted ev =>
        ⟨ev ++ (forEachNotificationsLoop env f act rest).events,
          notif :: (forEachNotificationsLoop env f act rest).invoked,
          (forEachNotificationsLoop env f act rest).err⟩
      | .failedBeforeAction ev e => ⟨ev, [], some e⟩
      | .failedInAction ev e => ⟨ev, [notif], some e⟩ := rfl

/-- Fail-fast: once a pass over `l1` has errored, appending further
notifications to the listing changes nothing about the pass. -/
lemma forEachNotificationsLoop_append_of_err (env : RemoteEnv) (f : Filters)
    (act : Notification → List Event × Option GoError)
    (l1 l2 : List Notification) (e : GoError)
    (h : (forEachNotificationsLoop env f act l1).err = some e) :
    forEachNotificationsLoop env f act (l1 ++ l2) =
      forEachNotificationsLoop env f act l1 := by
  induction l1 with
  | nil => simp [forEachNotificationsLoop] at h
  | cons notif rest ih =>
    simp only [List.cons_append] at *
    rw [forEachNotificationsLoop_cons env f act notif rest] at h
    rw [forEachNotificationsLoop_cons env f act notif (rest ++ l2),
      forEachNotificationsLoop_cons env f act notif rest]
    rcases hp : processNotification env f act notif with ⟨ev⟩ | ⟨ev⟩ | ⟨ev, e2⟩ | ⟨ev, e2⟩ <;>
      rw [hp] at h <;> dsimp only at h ⊢
    all_goals try rw [ih h]

/-- Compositionality: an error-free pass over `l1` followed by the rest of
the listing concatenates traces and invocations. -/
lemma forEachNotificationsLoop_append_of_ok (env : RemoteEnv) (f : Filters)
    (act : Notification → List Event × Option GoError)
    (l1 l2 : List Notification)
    (h : (forEachNotificationsLoop env f act l1).err = none) :
    forEachNotificationsLoop env f act (l1 ++ l2) =
      ⟨(forEachNotificationsLoop env f act l1).events ++
          (forEachNotificationsLoop env f act l2).events,
        (forEachNotificationsLoop env f act l1).invoked ++
          (forEachNotificationsLoop env f act l2).invoked,
        (forEachNotificationsLoop env f act l2).err⟩ := by
  induction l1 with
  | nil => simp [forEachNotificationsLoop]
  | cons notif rest ih =>
    simp only [List.cons_append] at *
    rw [forEachNotificationsLoop_cons env f act notif rest] at h
    rw [forEachNotificationsLoop_cons env f act notif (rest ++ l2),
      forEachNotificationsLoop_cons env f act notif rest]
    rcases hp : processNotification env f act notif with ⟨ev⟩ | ⟨ev⟩ | ⟨ev, e2⟩ | ⟨ev, e2⟩ <;>
      rw [hp] at h <;> dsimp only at h ⊢
    · rw [ih h]
      simp [List.append_assoc]
    · rw [ih h]
      simp [List.append_assoc]
    · simp at h
    · simp at h

/- Concrete fixtures used by witnesses and counterexamples. -/

/-- A pull-request subject. -/
def prSubject : Subject :=
  { title := "Fix bug", type := "PullRequest", url := "https://api.example/pr/1" }

/-- An already-read pull-request notification in repository `a/b`. -/
def prNotifA : Notification :=
  { id := "1", unread := false, reason := "subscribed",
    repository := ⟨"a/b"⟩, subject := prSubject }

/-- A second read pull-request notification. -/
def prNotifB : Notification :=
  { id := "2", unread := false, reason := "mention",
    repository := ⟨"a/b"⟩, subject := prSubject }

/-- A notification with the unsupported subject type `Commit`. -/
def commitNotif : Notification :=
  { id := "3", unread := false, reason := "subscribed", repository := ⟨"a/b"⟩,
    subject := { title := "Some commit", type := "Commit",
                 url := "https://api.example/commit/3" } }

/-- An unread issue notification. -/
def issueNotif : Notification :=
  { id := "4", unread := true, reason := "subscribed", repository := ⟨"a/b"⟩,
    subject := { title := "Bug report", type := "Issue",
                 url := "https://api.example/issue/4" } }

/-- A remote service on which every call succeeds; the pull-request detail
reports a merged pull request. -/
def envHappy : RemoteEnv :=
  { listNotifications := fun _ => .ok [prNotifA]
    fetchPullRequest := fun _ => .ok { state := "closed", merged := true }
    fetchIssue := fun _ => .ok { state := "open" }
    markThreadRead := fun _ => none
    deleteThreadSubscription := fun _ => none }

/-- A remote service on which detail fetches fail. -/
def envPRFails : RemoteEnv :=
  { listNotifications := fun _ => .ok [prNotifA]
    fetchPullRequest := fun _ => .error "boom"
    fetchIssue := fun _ => .error "boom"
    markThreadRead := fun _ => none
    deleteThreadSubscription := fun _ => none }

/-- A remote service on which the listing fetch itself fails. -/
def envListFails : RemoteEnv :=
  { listNotifications := fun _ => .error "down"
    fetchPullRequest := fun _ => .ok { state := "open", merged := false }
    fetchIssue := fun _ => .ok { state := "open" }
    markThreadRead := fun _ => none
    deleteThreadSubscription := fun _ => none }

/-- Filters: pull requests in state `open`, no repository filter. -/
def filtersStateOpen : Filters :=
  { repository := "", subjectType := "PullRequest", subjectState := "open",
    listRead := false, unsubscribeUnread := false }

/-- An action that does nothing and succeeds. -/
def actNone : Notification → List Event × Option GoError := fun _ => ([], none)

/-- C1: the pipeline invokes the action at most once per notification, only
on notifications that pass all configured filters (subject type equal to the
configured filter, repository filter unset or equal to the notification's
repository full name, state filter unset or equal to the resolved state),
and in the original listing order: the list of notifications the action is
invoked on is a sublist of the listing filtered by the combined predicate;
in particular a notification whose subject type or repository fails its
filter is never acted on. -/
theorem C1_action_invoked_only_on_passing_in_order (env : RemoteEnv)
    (f : Filters) (act : Notification → List Event × Option GoError)
    (l : List Notification) :
    List.Sublist (forEachNotificationsLoop env f act l).invoked
      (List.filter (passesAllFilters env f) l) := by
  induction l with
  | nil => simp [forEachNotificationsLoop]
  | cons notif rest ih =>
    rw [forEachNotificationsLoop_cons]
    rcases hp : processNotification env f act notif with ⟨ev⟩ | ⟨ev⟩ | ⟨ev, e⟩ | ⟨ev, e⟩ <;>
      dsimp only
    · rw [List.filter_cons, passes_false_of_skipped env f act notif ev hp]
      simp only [Bool.false_eq_true, if_false]
      exact ih
    · rw [List.filter_cons, passes_true_of_invoked env f act notif ev (Or.inl hp)]
      simp only [if_true]
      exact List.Sublist.cons₂ notif ih
    · exact List.nil_sublist _
    · rw [List.filter_cons, passes_true_of_invoked env f act notif ev (Or.inr ⟨e, hp⟩)]
      simp only [if_true]
      exact List.Sublist.cons₂ notif (List.nil_sublist _)

/-- C2: the pipeline pass is fail-fast: if processing a listing prefix ends
in an error, that first error is the result for the whole listing and the
remaining notifications are neither filtered, resolved nor acted upon (the
whole pass result is unchanged by them); if the prefix produced no error,
processing continues through the rest and the traces concatenate, so a fully
error-free listing yields no error. -/
theorem C2_pipeline_fail_fast (env : RemoteEnv) (f : Filters)
    (act : Notification → List Event × Option GoError)
    (l1 l2 : List Notification) :
    (∀ e : GoError, (forEachNotificationsLoop env f act l1).err = some e →
      forEachNotificationsLoop env f act (l1 ++ l2) =
        forEachNotificationsLoop env f act l1) ∧
    ((forEachNotificationsLoop env f act l1).err = none →
      forEachNotificationsLoop env f act (l1 ++ l2) =
        ⟨(forEachNotificationsLoop env f act l1).events ++
            (forEachNotificationsLoop env f act l2).events,
          (forEachNotificationsLoop env f act l1).invoked ++
            (forEachNotificationsLoop env f act l2).invoked,
          (forEachNotificationsLoop env f act l2).err⟩) :=
  ⟨fun e h => forEachNotificationsLoop_append_of_err env f act l1 l2 e h,
   fun h => forEachNotificationsLoop_append_of_ok env f act l1 l2 h⟩

/-- Witness for C2 at a concrete input: a pass whose first notification
fails state resolution ignores the appended notification entirely. -/
theorem C2_pipeline_fail_fast_witness :
    forEachNotificationsLoop envPRFails filtersStateOpen actNone
        ([prNotifA] ++ [prNotifB]) =
      forEachNotificationsLoop envPRFails filtersStateOpen actNone [prNotifA] :=
  (C2_pipeline_fail_fast envPRFails filtersStateOpen actNone [prNotifA] [prNotifB]).1
    (GoError.pullRequestDetailsFailed "boom") (by decide)

/-- Filters: pull requests in state `merged`, no repository filter. -/
def filtersStateMerged : Filters :=
  { repository := "", subjectType := "PullRequest", subjectState := "merged",
    listRead := false, unsubscribeUnread := false }

/-- Filters: issues, no state filter, force-unsubscribe of unread set. -/
def filtersUnsubUnread : Filters :=
  { repository := "", subjectType := "Issue", subjectState := "",
    listRead := false, unsubscribeUnread := true }

/-- C3: for a pull-request notification the resolver returns the fetched
detail resource's own state field, overridden to `merged` exactly when the
resource's merged flag is true; consequently, once the structural filters
match, a merged pull-request notification passes a configured state filter
`F` if and only if `F = "merged"`. -/
theorem C3_pull_request_state_merged_override (env : RemoteEnv)
    (n : Notification) (pr : PullRequestDetail)
    (hty : n.subject.type = "PullRequest")
    (hfetch : env.fetchPullRequest n.subject.url = Except.ok pr) :
    (resolveNotificationSubjectState env n).2 =
        Except.ok (if pr.merged then "merged" else pr.state) ∧
    (pr.merged = true → ∀ f : Filters,
      f.subjectType = n.subject.type →
      (f.repository = "" ∨ f.repository = n.repository.fullName) →
      f.subjectState ≠ "" →
      (passesAllFilters env f n = true ↔ f.subjectState = "merged")) := by
  have hres : (resolveNotificationSubjectState env n).2 =
      Except.ok (if pr.merged then "merged" else pr.state) := by
    simp only [resolveNotificationSubjectState, hty, hfetch]
  refine ⟨hres, fun hm f h1 h2 h3 => ?_⟩
  rw [hm] at hres
  simp only [if_true] at hres
  rw [passesAllFilters_iff]
  constructor
  · rintro ⟨-, -, hst⟩
    rcases hst with hst | ⟨s, hok, rfl⟩
    · exact absurd hst h3
    · rw [hres] at hok
      injection hok with hs
      exact hs.symm
  · intro hmerged
    exact ⟨h1, h2, Or.inr ⟨"merged", hres, hmerged.symm⟩⟩

/-- Witness for C3 at a concrete input: a merged pull request resolves to
`merged` and passes the state filter `merged`. -/
theorem C3_pull_request_state_merged_override_witness :
    (resolveNotificationSubjectState envHappy prNotifA).2 = Except.ok "merged" ∧
    (passesAllFilters envHappy filtersStateMerged prNotifA = true ↔
      filtersStateMerged.subjectState = "merged") := by
  have h := C3_pull_request_state_merged_override envHappy prNotifA
    { state := "closed", merged := true } rfl rfl
  exact ⟨h.1, h.2 rfl filtersStateMerged rfl (Or.inl rfl) (by decide)⟩

/-- C4: an unread notification reaching the unsubscribe action with the
force-unsubscribe-unread flag set, on a remote that accepts both calls,
results in exactly one markThreadRead call followed by exactly one
deleteThreadSubscription call, in that order, followed by exactly one
confirmation output line, and no error. -/
theorem C4_unsubscribe_unread_forced (env : RemoteEnv) (f : Filters)
    (n : Notification)
    (hu : n.unread = true) (hf : f.unsubscribeUnread = true)
    (hm : env.markThreadRead n.id = none)
    (hd : env.deleteThreadSubscription n.id = none) :
    unsubscribeAction env f n =
      ([.markThreadRead n.id, .deleteThreadSubscription n.id,
        .output (unsubscribeConfirmLine n)], none) := by
  simp [unsubscribeAction, hu, hf, hm, hd]

/-- Witness for C4: the concrete unread issue notification, with the flag
set and a successful remote, yields the mark-read/delete/confirm trace. -/
theorem C4_unsubscribe_unread_forced_witness :
    unsubscribeAction envHappy filtersUnsubUnread issueNotif =
      ([.markThreadRead "4", .deleteThreadSubscription "4",
        .output (unsubscribeConfirmLine issueNotif)], none) :=
  C4_unsubscribe_unread_forced envHappy filtersUnsubUnread issueNotif
    rfl rfl rfl rfl

/-- C5: an unread notification reaching the unsubscribe action with the
force-unsubscribe-unread flag unset is skipped silently: no remote call, no
output line, no error. -/
theorem C5_unsubscribe_unread_not_forced (env : RemoteEnv) (f : Filters)
    (n : Notification)
    (hu : n.unread = true) (hf : f.unsubscribeUnread = false) :
    unsubscribeAction env f n = ([], none) := by
  simp [unsubscribeAction, hu, hf]

/-- Witness for C5: the concrete unread issue notification under the
default unsubscribe filters produces no events and no error. -/
theorem C5_unsubscribe_unread_not_forced_witness :
    unsubscribeAction envHappy defaultUnsubscribeFilters issueNotif = ([], none) :=
  C5_unsubscribe_unread_not_forced envHappy defaultUnsubscribeFilters issueNotif
    rfl rfl

/-- The resolver on a subject type that is neither `PullRequest` nor `Issue`
makes no remote call and fails with the unsupported-subject-type error. -/
lemma resolveNotificationSubjectState_unsupported (env : RemoteEnv)
    (n : Notification)
    (h1 : n.subject.type ≠ "PullRequest") (h2 : n.subject.type ≠ "Issue") :
    resolveNotificationSubjectState env n =
      ([], Except.error (GoError.unsupportedSubjectType n.subject.type)) := by
  unfold resolveNotificationSubjectState
  split
  · next heq => exact absurd heq h1
  · next heq => exact absurd heq h2
  · rfl

/-- The resolver on a `PullRequest` or `Issue` subject never returns the
unsupported-subject-type error. -/
lemma resolveNotificationSubjectState_not_unsupported (env : RemoteEnv)
    (n : Notification)
    (h : n.subject.type = "PullRequest" ∨ n.subject.type = "Issue")
    (t : String) :
    (resolveNotificationSubjectState env n).2 ≠
      Except.error (GoError.unsupportedSubjectType t) := by
  rcases h with h | h <;> simp only [resolveNotificationSubjectState, h]
  · rcases env.fetchPullRequest n.subject.url with e | pr <;> simp
  · rcases env.fetchIssue n.subject.url with e | iss <;> simp

/-- C6 counterexample: a run of the `list` command whose pipeline fails (the
listing fetch errors) still exits with status 0, contradicting the claim
that any pipeline error makes the process exit with a non-zero status. -/
theorem C6_counterexample_exit_zero_on_pipeline_error :
    (forEachNotifications envListFails defaultListFilters
        defaultListFilters.listRead
        (printNotification envListFails defaultListFilters)).err =
      some (GoError.listNotificationsFailed "down") ∧
    (mainRun envListFails defaultListFilters Subcommand.list).2 = 0 :=
  ⟨rfl, rfl⟩

/-- C6 amended: every pipeline error is printed to standard output as the
failure line, but the process exit status of a completed run is always 0:
the handlers are registered as cobra `Run` functions, so the error never
propagates to `main` and its non-zero exit branch is never taken for a
pipeline error. -/
theorem C6_amended_pipeline_error_printed_but_exit_zero (env : RemoteEnv)
    (f : Filters) (e : GoError) :
    ((mainRun env f Subcommand.list).2 = 0 ∧
      (mainRun env f Subcommand.unsubscribe).2 = 0) ∧
    ((forEachNotifications env f f.listRead (printNotification env f)).err =
        some e →
      Event.output (processFailedLine e) ∈ runList env f) ∧
    ((forEachNotifications env f true (unsubscribeAction env f)).err = some e →
      Event.output (processFailedLine e) ∈ runUnsubscribe env f) := by
  refine ⟨⟨rfl, rfl⟩, fun h => ?_, fun h => ?_⟩
  · simp [runList, h]
  · simp [runUnsubscribe, h]

/-- Witness for the amended C6: the concrete failing listing prints the
failure line while the exit status stays 0. -/
theorem C6_amended_pipeline_error_printed_but_exit_zero_witness :
    (mainRun envListFails defaultListFilters Subcommand.list).2 = 0 ∧
    Event.output (processFailedLine (GoError.listNotificationsFailed "down")) ∈
      runList envListFails defaultListFilters :=
  ⟨(C6_amended_pipeline_error_printed_but_exit_zero envListFails
      defaultListFilters (GoError.listNotificationsFailed "down")).1.1,
   (C6_amended_pipeline_error_printed_but_exit_zero envListFails
      defaultListFilters (GoError.listNotificationsFailed "down")).2.1 rfl⟩

/-- C7 counterexample: a listing containing a `Commit` notification, with a
subject-state filter set but the subject-type filter at its default
`PullRequest`, does not abort: the `Commit` notification is skipped by the
type filter and the pass ends with no error. -/
theorem C7_counterexample_commit_skipped_not_aborted :
    (forEachNotificationsLoop envHappy filtersStateOpen actNone
        [commitNotif]).err = none := by
  decide

/-- C7 amended: when the pipeline pass reaches a `Commit` notification that
matches the subject-type filter (and any configured repository filter) while
a subject-state filter is set, it aborts at once with the
unsupported-subject-type error: no event is emitted and no action is invoked
for that notification or any later one; a `Commit` notification that fails
the subject-type filter is instead skipped silently without error. -/
theorem C7_amended_commit_aborts_when_reaching_state_filter (env : RemoteEnv)
    (f : Filters) (act : Notification → List Event × Option GoError)
    (notif : Notification) (rest : List Notification)
    (hty : notif.subject.type = "Commit")
    (hf : f.subjectType = "Commit")
    (hrep : f.repository = "" ∨ f.repository = notif.repository.fullName)
    (hst : f.subjectState ≠ "") :
    forEachNotificationsLoop env f act (notif :: rest) =
      ⟨[], [], some (GoError.unsupportedSubjectType "Commit")⟩ := by
  have hresolve : resolveNotificationSubjectState env notif =
      ([], Except.error (GoError.unsupportedSubjectType "Commit")) := by
    rw [resolveNotificationSubjectState_unsupported env notif
      (by rw [hty]; decide) (by rw [hty]; decide), hty]
  have hp : processNotification env f act notif =
      .failedBeforeAction [] (GoError.unsupportedSubjectType "Commit") := by
    unfold processNotification
    rw [if_neg (not_not_intro (hf.trans hty.symm))]
    have hrep2 : ¬(f.repository ≠ "" ∧ f.repository ≠ notif.repository.fullName) := by
      rcases hrep with hr | hr
      · exact fun hc => hc.1 hr
      · exact fun hc => hc.2 hr
    rw [if_neg hrep2, if_pos hst, hresolve]
  rw [forEachNotificationsLoop_cons, hp]

/-- Witness for the amended C7: with the subject-type filter set to `Commit`
and a state filter, the pass over the concrete Commit notification aborts
with the unsupported-subject-type error and invokes nothing. -/
theorem C7_amended_commit_aborts_when_reaching_state_filter_witness :
    forEachNotificationsLoop envHappy
        { repository := "", subjectType := "Commit", subjectState := "closed",
          listRead := false, unsubscribeUnread := false }
        actNone [commitNotif] =
      ⟨[], [], some (GoError.unsupportedSubjectType "Commit")⟩ :=
  C7_amended_commit_aborts_when_reaching_state_filter envHappy
    { repository := "", subjectType := "Commit", subjectState := "closed",
      listRead := false, unsubscribeUnread := false }
    actNone commitNotif [] rfl rfl (Or.inl rfl) (by decide)

/-- C8: for every notification reaching the list (print) action: with a
subject-state filter configured the printed state is the configured filter
string and the action makes no detail fetch; with no state filter the action
resolves the state (for a supported subject type: exactly one detail fetch
at the subject URL) and prints the resolved state. -/
theorem C8_list_action_display_state (env : RemoteEnv) (f : Filters)
    (n : Notification) :
    (f.subjectState ≠ "" →
      printNotification env f n =
        ([.output (listLine n.subject.title f.subjectState)], none)) ∧
    (f.subjectState = "" → ∀ (ev : List Event) (s : String),
      resolveNotificationSubjectState env n = (ev, Except.ok s) →
      printNotification env f n =
        (ev ++ [.output (listLine n.subject.title s)], none)) ∧
    ((n.subject.type = "PullRequest" ∨ n.subject.type = "Issue") →
      (resolveNotificationSubjectState env n).1 =
        [.fetchDetail n.subject.url]) := by
  refine ⟨fun h => ?_, fun h ev s hres => ?_, fun hty => ?_⟩
  · simp [printNotification, h]
  · simp [printNotification, h, hres]
  · rcases hty with hty | hty <;> simp only [resolveNotificationSubjectState, hty]
    · rcases env.fetchPullRequest n.subject.url with e | pr <;> simp
    · rcases env.fetchIssue n.subject.url with e | iss <;> simp

/-- Witness for C8: concretely, with a state filter the printed state is the
filter string and nothing is fetched; without one the state is resolved with
one fetch and printed. -/
theorem C8_list_action_display_state_witness :
    printNotification envHappy filtersStateOpen prNotifA =
      ([.output (listLine "Fix bug" "open")], none) ∧
    printNotification envHappy defaultListFilters prNotifA =
      ([.fetchDetail "https://api.example/pr/1",
        .output (listLine "Fix bug" "merged")], none) ∧
    (resolveNotificationSubjectState envHappy prNotifA).1 =
      [.fetchDetail "https://api.example/pr/1"] := by
  refine ⟨(C8_list_action_display_state envHappy filtersStateOpen prNotifA).1
      (by decide), ?_,
    (C8_list_action_display_state envHappy defaultListFilters prNotifA).2.2
      (Or.inl rfl)⟩
  exact (C8_list_action_display_state envHappy defaultListFilters prNotifA).2.1
    rfl [.fetchDetail "https://api.example/pr/1"] "merged" rfl

/-- C9: the unsubscribe command always fetches the listing with the
include-read option set to `true`, whatever the filters are (including the
force-unsubscribe-unread flag), while the list command's fetch uses the
show-read flag, whose default is `false`. -/
theorem C9_unsubscribe_always_fetches_read (env : RemoteEnv) (f : Filters) :
    (runUnsubscribe env f).head? = some (Event.listNotifications true) ∧
    (runList env f).head? = some (Event.listNotifications f.listRead) ∧
    defaultListFilters.listRead = false := by
  refine ⟨?_, ?_, rfl⟩
  · simp only [runUnsubscribe, forEachNotifications]
    rcases env.listNotifications true with e | l
    · simp
    · rcases (forEachNotificationsLoop env f (unsubscribeAction env f) l).err
        with - | e <;> simp
  · simp only [runList, forEachNotifications]
    rcases env.listNotifications f.listRead with e | l
    · simp
    · rcases (forEachNotificationsLoop env f (printNotification env f) l).err
        with - | e <;> simp

/-- C10: a pre-action pipeline failure only ever arises on a notification
whose subject type equals the configured subject-type filter; hence when
that filter is `PullRequest` or `Issue` (and the action itself never
produces an unsupported-subject-type error), the pipeline can never end
with the resolver's unsupported-subject-type error. -/
theorem C10_unsupported_branch_unreachable (env : RemoteEnv) (f : Filters)
    (act : Notification → List Event × Option GoError) :
    (∀ (n : Notification) (ev : List Event) (e : GoError),
      processNotification env f act n = .failedBeforeAction ev e →
      f.subjectType = n.subject.type) ∧
    ((f.subjectType = "PullRequest" ∨ f.subjectType = "Issue") →
      (∀ (n : Notification) (t : String),
        (act n).2 ≠ some (GoError.unsupportedSubjectType t)) →
      ∀ (l : List Notification) (t : String),
        (forEachNotificationsLoop env f act l).err ≠
          some (GoError.unsupportedSubjectType t)) := by
  constructor
  · intro n ev e h
    exact (failedBefore_inv env f act n ev e h).1
  · intro hf hact l t
    induction l with
    | nil => simp [forEachNotificationsLoop]
    | cons notif rest ih =>
      rw [forEachNotificationsLoop_cons]
      rcases hp : processNotification env f act notif with ⟨ev⟩ | ⟨ev⟩ | ⟨ev, e⟩ | ⟨ev, e⟩ <;>
        dsimp only
      · exact ih
      · exact ih
      · obtain ⟨hty, -, hres⟩ := failedBefore_inv env f act notif ev e hp
        intro hcontra
        injection hcontra with he
        subst he
        have htype : notif.subject.type = "PullRequest" ∨
            notif.subject.type = "Issue" := by
          rcases hf with h | h
          · exact Or.inl (hty.symm.trans h)
          · exact Or.inr (hty.symm.trans h)
        exact resolveNotificationSubjectState_not_unsupported env notif htype t hres
      · intro hcontra
        injection hcontra with he
        exact hact notif t (he ▸ failedIn_inv env f act notif ev e hp)

/-- Witness for C10: with the default `PullRequest` type filter and a
harmless action, a pass over the Commit notification cannot end in the
unsupported-subject-type error. -/
theorem C10_unsupported_branch_unreachable_witness :
    (forEachNotificationsLoop envHappy filtersStateOpen actNone
        [commitNotif]).err ≠
      some (GoError.unsupportedSubjectType "Commit") :=
  (C10_unsupported_branch_unreachable envHappy filtersStateOpen actNone).2
    (Or.inl rfl) (fun n t => by simp [actNone]) [commitNotif] "Commit"

end GhNotifications
